import Mathlib

/-!
# Chat session manager of `my-app/src/App.js`

A shallow embedding of the session logic of the React component `App`:
`toSafeString`, `appendMessage`, `handleTextSend`, `handleImageChange`
and `handleVoice`, together with the JavaScript built-ins they
call (`typeof`, truthiness, `String.prototype.trim`, `JSON.stringify`,
`String(...)`).

Handlers are embedded as the list of effects they perform, in statement order;
the React state is recovered by running the effects, each state setter being
taken to act when it is called (the deferral of the re-render is not part of
the model). An `async` handler is cut at its `await`: the part before it and
the part after it, which depends on how the backend call ended.
-/

namespace App

/-! ## JavaScript values -/

/-- A Number. A finite number is kept as the decimal text `Number::toString`
gives it (`"5"`, `"1.5"`, `"1e+21"`; both zeros print as `"0"`), so no
floating-point arithmetic is needed. -/
inductive JsNum where
  | nan
  | infinity (negative : Bool)
  | finite (shown : String)

/-- The JavaScript values the handlers can be given.

* `func source` is a function whose source text is `source`;
* `stringObj s` is the wrapper object `new String(s)`;
* `reactElement fields` is an object for which `React.isValidElement` holds,
  with its own enumerable string-keyed properties;
* `arr items` is an array (a hole reads as `undefined`);
* `obj fields` is a plain object, with its own enumerable string-keyed
  properties in enumeration order (keys are distinct, and no property named
  `toJSON` holds a function);
* `cyclicObj` is a plain object that reaches itself through its properties. -/
inductive JsVal where
  | undefined
  | null
  | bool (b : Bool)
  | num (n : JsNum)
  | str (s : String)
  | bigint (i : Int)
  | symbol (description : String)
  | func (source : String)
  | stringObj (s : String)
  | reactElement (fields : List (String × JsVal))
  | arr (items : List JsVal)
  | obj (fields : List (String × JsVal))
  | cyclicObj

/-- A value thrown by JavaScript code. -/
inductive JsError where
  | typeError
  | badJson
  | networkError

/-- The result of evaluating JavaScript code that may throw. -/
abbrev Js (α : Type) := Except JsError α

/-- The operator `typeof`. -/
def typeofJs : JsVal → String
  | .undefined => "undefined"
  | .null => "object"
  | .bool _ => "boolean"
  | .num _ => "number"
  | .str _ => "string"
  | .bigint _ => "bigint"
  | .symbol _ => "symbol"
  | .func _ => "function"
  | .stringObj _ => "object"
  | .reactElement _ => "object"
  | .arr _ => "object"
  | .obj _ => "object"
  | .cyclicObj => "object"

/-- The abstract operation `ToBoolean`. -/
def truthy : JsVal → Bool
  | .undefined => false
  | .null => false
  | .bool b => b
  | .num .nan => false
  | .num (.infinity _) => true
  | .num (.finite shown) => shown != "0"
  | .str s => s != ""
  | .bigint i => i != 0
  | _ => true

/-- The test `v instanceof String`. -/
def instanceofString : JsVal → Bool
  | .stringObj _ => true
  | _ => false

/-- The test `v === undefined`. -/
def isUndefined : JsVal → Bool
  | .undefined => true
  | _ => false

/-- The test `React.isValidElement(v)`. -/
def isValidElement : JsVal → Bool
  | .reactElement _ => true
  | _ => false

/-- The operation `Number::toString`. -/
def JsNum.toText : JsNum → String
  | .nan => "NaN"
  | .infinity false => "Infinity"
  | .infinity true => "-Infinity"
  | .finite shown => shown

/-! ## `String.prototype.trim` -/

/-- The code points `trim` removes: the ECMAScript `WhiteSpace` and
`LineTerminator` productions. -/
def isJsWhiteSpace (c : Char) : Bool :=
  c.toNat ∈ [0x09, 0x0A, 0x0B, 0x0C, 0x0D, 0x20, 0xA0, 0x1680,
    0x2000, 0x2001, 0x2002, 0x2003, 0x2004, 0x2005, 0x2006, 0x2007, 0x2008,
    0x2009, 0x200A, 0x2028, 0x2029, 0x202F, 0x205F, 0x3000, 0xFEFF]

/-- The method `String.prototype.trim`, on the list of code points. -/
def trimChars (cs : List Char) : List Char :=
  ((cs.dropWhile isJsWhiteSpace).reverse.dropWhile isJsWhiteSpace).reverse

/-- The method `String.prototype.trim`. -/
def jsTrim (s : String) : String :=
  String.mk (trimChars s.data)

/-! ## `JSON.stringify` and `String(...)` -/

/-- A hexadecimal digit, lower case. -/
def hexDigit (n : Nat) : Char :=
  if n < 10 then Char.ofNat (48 + n) else Char.ofNat (87 + n)

/-- The operation `UnicodeEscape`: a backslash, `u` and four hexadecimal digits. -/
def unicodeEscape (n : Nat) : List Char :=
  [Char.ofNat 92, Char.ofNat 117, hexDigit (n / 4096 % 16), hexDigit (n / 256 % 16),
    hexDigit (n / 16 % 16), hexDigit (n % 16)]

/-- One code point of `QuoteJSONString`. -/
def quoteChar (c : Char) : List Char :=
  if c.toNat = 8 then [Char.ofNat 92, Char.ofNat 98]
  else if c.toNat = 9 then [Char.ofNat 92, Char.ofNat 116]
  else if c.toNat = 10 then [Char.ofNat 92, Char.ofNat 110]
  else if c.toNat = 12 then [Char.ofNat 92, Char.ofNat 102]
  else if c.toNat = 13 then [Char.ofNat 92, Char.ofNat 114]
  else if c.toNat = 34 then [Char.ofNat 92, Char.ofNat 34]
  else if c.toNat = 92 then [Char.ofNat 92, Char.ofNat 92]
  else if c.toNat < 32 then unicodeEscape c.toNat
  else [c]

/-- The operation `QuoteJSONString`. -/
def quoteJSONString (s : String) : String :=
  String.mk ([Char.ofNat 34] ++ (s.data.map quoteChar).flatten ++ [Char.ofNat 34])

/-- Joins texts with commas. -/
def commaJoin : List String → String
  | [] => ""
  | [x] => x
  | x :: y :: rest => x ++ "," ++ commaJoin (y :: rest)

mutual
/-- The operation `SerializeJSONProperty`: `none` stands for `undefined`. -/
def serializeJSONProperty : JsVal → Js (Option String)
  | .undefined => .ok none
  | .null => .ok (some "null")
  | .bool true => .ok (some "true")
  | .bool false => .ok (some "false")
  | .num (.finite shown) => .ok (some shown)
  | .num _ => .ok (some "null")
  | .str s => .ok (some (quoteJSONString s))
  | .bigint _ => .error .typeError
  | .symbol _ => .ok none
  | .func _ => .ok none
  | .stringObj s => .ok (some (quoteJSONString s))
  | .reactElement fields =>
    match serializeJSONMembers fields with
    | .ok members => .ok (some ("\x7b" ++ commaJoin members ++ "\x7d"))
    | .error e => .error e
  | .arr items =>
    match serializeJSONElements items with
    | .ok elements => .ok (some ("[" ++ commaJoin elements ++ "]"))
    | .error e => .error e
  | .obj fields =>
    match serializeJSONMembers fields with
    | .ok members => .ok (some ("\x7b" ++ commaJoin members ++ "\x7d"))
    | .error e => .error e
  | .cyclicObj => .error .typeError
/-- The elements of `SerializeJSONArray`: `undefined` is written `null`. -/
def serializeJSONElements : List JsVal → Js (List String)
  | [] => .ok []
  | v :: rest =>
    match serializeJSONProperty v with
    | .error e => .error e
    | .ok strP =>
      match serializeJSONElements rest with
      | .error e => .error e
      | .ok tail => .ok (strP.getD "null" :: tail)
/-- The members of `SerializeJSONObject`: a property whose value serialises
to `undefined` is left out. -/
def serializeJSONMembers : List (String × JsVal) → Js (List String)
  | [] => .ok []
  | (key, v) :: rest =>
    match serializeJSONProperty v with
    | .error e => .error e
    | .ok strP =>
      match serializeJSONMembers rest with
      | .error e => .error e
      | .ok tail =>
        match strP with
        | none => .ok tail
        | some text => .ok ((quoteJSONString key ++ ":" ++ text) :: tail)
end

/-- The call `JSON.stringify(val)`: a string, or `undefined`, or a throw. -/
def jsonStringify (val : JsVal) : Js JsVal :=
  match serializeJSONProperty val with
  | .error e => .error e
  | .ok none => .ok .undefined
  | .ok (some text) => .ok (.str text)

/-- Puts the text of one element in front of the texts of the later ones;
the element is converted first, so its throw wins. -/
def consText (head : Js String) (tail : Js (List String)) : Js (List String) :=
  match head with
  | .error e => .error e
  | .ok text =>
    match tail with
    | .error e => .error e
    | .ok texts => .ok (text :: texts)

mutual
/-- The abstract operation `ToString`. -/
def toStringJs : JsVal → Js String
  | .undefined => .ok "undefined"
  | .null => .ok "null"
  | .bool true => .ok "true"
  | .bool false => .ok "false"
  | .num n => .ok n.toText
  | .str s => .ok s
  | .bigint i => .ok (toString i)
  | .symbol _ => .error .typeError
  | .func source => .ok source
  | .stringObj s => .ok s
  | .reactElement _ => .ok "[object Object]"
  | .arr items =>
    match joinElements items with
    | .ok texts => .ok (commaJoin texts)
    | .error e => .error e
  | .obj _ => .ok "[object Object]"
  | .cyclicObj => .ok "[object Object]"
/-- The elements of `Array.prototype.join`: `undefined` and `null` are
written as the empty string. -/
def joinElements : List JsVal → Js (List String)
  | [] => .ok []
  | .undefined :: rest => consText (.ok "") (joinElements rest)
  | .null :: rest => consText (.ok "") (joinElements rest)
  | v :: rest => consText (toStringJs v) (joinElements rest)
end

/-- The call `String(val)`: a symbol is described, anything else goes
through `ToString`. -/
def stringOf : JsVal → Js String
  | .symbol description => .ok ("Symbol(" ++ description ++ ")")
  | v => toStringJs v

/-! ## `toSafeString` -/

/-- The function `toSafeString` of `App.js`. -/
def toSafeString (val : JsVal) : Js JsVal :=
  if typeofJs val == "string" then .ok val
  else if val matches .null || isUndefined val then .ok (.str "")
  else if isValidElement val then .ok (.str "[React element]")
  else
    match jsonStringify val with
    | .ok text => .ok text
    | .error _ =>
      match stringOf val with
      | .ok text => .ok (.str text)
      | .error e => .error e

/-! ## Backend answers -/

/-- A value produced by parsing JSON text, as `res.json()` resolves with. -/
inductive Json where
  | null
  | bool (b : Bool)
  | num (n : JsNum)
  | str (s : String)
  | arr (items : List Json)
  | obj (fields : List (String × Json))

mutual
/-- The JavaScript value a parsed JSON value is. -/
def Json.toJs : Json → JsVal
  | .null => .null
  | .bool b => .bool b
  | .num n => .num n
  | .str s => .str s
  | .arr items => .arr (Json.toJsList items)
  | .obj fields => .obj (Json.toJsFields fields)
/-- The elements of a parsed array. -/
def Json.toJsList : List Json → List JsVal
  | [] => []
  | j :: rest => j.toJs :: Json.toJsList rest
/-- The properties of a parsed object. -/
def Json.toJsFields : List (String × Json) → List (String × JsVal)
  | [] => []
  | (key, j) :: rest => (key, j.toJs) :: Json.toJsFields rest
end

/-- The property read `data.reply`: it throws on `null`, and is `undefined`
when `data` has no such property. -/
def getReply : Json → Js JsVal
  | .null => .error .typeError
  | .obj fields =>
    match fields.lookup "reply" with
    | some reply => .ok reply.toJs
    | none => .ok .undefined
  | _ => .ok .undefined

/-- The operator `||`. -/
def jsOr (a b : JsVal) : JsVal :=
  if truthy a then a else b

/-- How an `await fetch(...)` followed by `await res.json()` ends: the fetch
promise is rejected, or it resolves with a response of some HTTP status whose
body either parses as JSON (`some data`) or does not (`none`). -/
inductive FetchOutcome where
  | rejected
  | response (status : Nat) (body : Option Json)

/-- The result of `await fetch(...)`: the response, as its status and body. -/
def FetchOutcome.awaitFetch : FetchOutcome → Js (Nat × Option Json)
  | .rejected => .error .networkError
  | .response status body => .ok (status, body)

/-- The result of `await res.json()`. -/
def awaitJson (res : Nat × Option Json) : Js Json :=
  match res.2 with
  | some data => .ok data
  | none => .error .badJson

/-! ## Session state and effects -/

/-- The sender of a message: the strings `"user"` and `"bot"`. -/
inductive Sender where
  | user
  | bot
  deriving DecidableEq

/-- An entry of the `messages` state. -/
structure Message where
  sender : Sender
  text : JsVal

/-- A file picked in the file input. -/
structure File where
  name : String

/-- The body of a request. -/
inductive RequestBody where
  | urlEncoded (params : List (String × JsVal))
  | formData (file : File) (question : String)

/-- The state of the component `App`: its five `useState` cells and whether
`recognitionRef.current` holds a recognizer. -/
structure Session where
  messages : List Message
  text : String
  loading : Bool
  image : Option String
  voiceActive : Bool
  recognition : Bool

/-- What a handler does, one constructor per kind of statement. -/
inductive Effect where
  | appendMessage (sender : Sender) (text : JsVal)
  | setText (value : String)
  | setLoading (value : Bool)
  | setImage (url : String)
  | fetch (url : String) (body : RequestBody)
  | alert (message : String)
  | recognitionStart
  | recognitionStop
  | resetInput

/-- The updater of `appendMessage`:
`(prev) => [...prev, { sender, text: toSafeString(text) }]`. -/
def appendMessage (sender : Sender) (text : JsVal) (prev : List Message) :
    Js (List Message) :=
  match toSafeString text with
  | .ok safe => .ok (prev ++ [{ sender := sender, text := safe }])
  | .error e => .error e

/-- The state after one effect. -/
def Effect.apply (s : Session) : Effect → Js Session
  | .appendMessage sender text =>
    match App.appendMessage sender text s.messages with
    | .ok next => .ok { s with messages := next }
    | .error e => .error e
  | .setText value => .ok { s with text := value }
  | .setLoading value => .ok { s with loading := value }
  | .setImage url => .ok { s with image := some url }
  | _ => .ok s

/-- The state after a list of effects, applied in order. -/
def run : List Effect → Session → Js Session
  | [], s => .ok s
  | e :: rest, s =>
    match e.apply s with
    | .ok next => run rest next
    | .error err => .error err

/-! ## The handlers -/

/-- The call `msgStr.trim()`: only a string has the method. -/
def callTrim : JsVal → Js String
  | .str s => .ok (jsTrim s)
  | .stringObj s => .ok (jsTrim s)
  | _ => .error .typeError

/-- The part of `handleTextSend` up to `await fetch(...)`, with `text` the
composing text of the render it closes over. `none`: it returned at one of its
two guards; `some effects`: it is suspended at the `await`. -/
def handleTextSendBefore (text : String) (overrideText : JsVal) :
    Js (Option (List Effect)) :=
  if truthy overrideText && typeofJs overrideText == "object"
      && !instanceofString overrideText then .ok none
  else
    let msg := if !isUndefined overrideText then overrideText else .str text
    match toSafeString msg with
    | .error e => .error e
    | .ok msgStr =>
      match callTrim msgStr with
      | .error e => .error e
      | .ok trimmed =>
        if trimmed == "" then .ok none
        else .ok (some ([.appendMessage .user msgStr]
          ++ (if isUndefined overrideText then [.setText ""] else [])
          ++ [.setLoading true, .fetch "/chat/" (.urlEncoded [("text", msgStr)])]))

/-- The part of `handleTextSend` after `await fetch(...)`: the rest of the
`try` block or the `catch` block, then `setLoading(false)`. -/
def handleTextSendAfter (o : FetchOutcome) : List Effect :=
  (match (do
      let res ← o.awaitFetch
      let data ← awaitJson res
      let reply ← getReply data
      pure [Effect.appendMessage .bot (jsOr reply (.str "No reply from server."))]) with
    | .ok effects => effects
    | .error _ => [.appendMessage .bot (.str "Error contacting server.")])
  ++ [.setLoading false]

/-- The function `handleTextSend`, run to its end: everything it does when
the backend call ends as `o`. -/
def handleTextSend (text : String) (overrideText : JsVal) (o : FetchOutcome) :
    Js (List Effect) :=
  match handleTextSendBefore text overrideText with
  | .error e => .error e
  | .ok none => .ok []
  | .ok (some before) => .ok (before ++ handleTextSendAfter o)

/-- The part of `handleImageChange` up to `await fetch(...)`, with `file`
the value of `e.target.files[0]` and `url` what `URL.createObjectURL(file)`
returns. -/
def handleImageChangeBefore (file : Option File) (url : String) :
    Option (List Effect) :=
  match file with
  | none => none
  | some f => some [.setImage url, .appendMessage .user (.str "[Sent an image]"),
      .setLoading true, .fetch "/vision/" (.formData f "")]

/-- The part of `handleImageChange` after `await fetch(...)`. -/
def handleImageChangeAfter (o : FetchOutcome) : List Effect :=
  (match (do
      let res ← o.awaitFetch
      let data ← awaitJson res
      let reply ← getReply data
      pure [Effect.appendMessage .bot (jsOr reply (.str "No response for image."))]) with
    | .ok effects => effects
    | .error _ => [.appendMessage .bot (.str "Image send failed.")])
  ++ [.setLoading false, .resetInput]

/-- The function `handleImageChange`, run to its end. -/
def handleImageChange (file : Option File) (url : String) (o : FetchOutcome) :
    List Effect :=
  match handleImageChangeBefore file url with
  | none => []
  | some before => before ++ handleImageChangeAfter o

/-- The function `handleVoice`. -/
def handleVoice (s : Session) : List Effect :=
  if !s.recognition then [.alert "Voice recognition not supported"]
  else if s.voiceActive then [.recognitionStop]
  else [.recognitionStart]

/-- A text send on session `s`: what `handleTextSend` does and the state it
leaves. -/
def textSend (s : Session) (overrideText : JsVal) (o : FetchOutcome) :
    Js (List Effect × Session) :=
  match handleTextSend s.text overrideText o with
  | .error e => .error e
  | .ok effects =>
    match run effects s with
    | .ok after => .ok (effects, after)
    | .error e => .error e

/-- An image send on session `s`: what `handleImageChange` does and the state
it leaves. -/
def imageSend (s : Session) (file : Option File) (url : String) (o : FetchOutcome) :
    Js (List Effect × Session) :=
  match run (handleImageChange file url o) s with
  | .ok after => .ok (handleImageChange file url o, after)
  | .error e => .error e

/-- A session at start: no message, empty composing text, not busy. -/
def Session.initial : Session :=
  { messages := [], text := "", loading := false, image := none,
    voiceActive := false, recognition := true }

/-! ## Reading a list of effects -/

/-- An `appendMessage` call for the given sender. -/
def Effect.isAppendBy (sender : Sender) : Effect → Bool
  | .appendMessage who _ => who == sender
  | _ => false

/-- A `fetch` call: the request is issued. -/
def Effect.isFetch : Effect → Bool
  | .fetch _ _ => true
  | _ => false

/-- The call `setLoading(false)`: the busy flag is cleared. -/
def Effect.isClearBusy : Effect → Bool
  | .setLoading false => true
  | _ => false

/-! ## Overlapping calls -/

/-- The handler that issued a request: `handleTextSend` for the chat
endpoint, `handleImageChange` for the vision endpoint. -/
inductive Channel where
  | chat
  | vision
  deriving DecidableEq

/-- A handler suspended at its `await`, with the request it issued. -/
structure Pending where
  channel : Channel
  url : String
  body : RequestBody

/-- The requests a list of effects issues, one per `fetch` call, each tagged
with the handler that ran the effects. -/
def pendingOf (channel : Channel) : List Effect → List Pending
  | [] => []
  | .fetch url body :: rest => { channel := channel, url := url, body := body }
      :: pendingOf channel rest
  | _ :: rest => pendingOf channel rest

/-- The session, the requests that are outstanding (oldest first, each with
its suspended handler) and every effect performed so far, in order. -/
structure World where
  session : Session
  outstanding : List Pending
  trace : List Effect

/-- What can happen: the text channel fires, the image channel fires, or the
outstanding request at a position of the list ends with some outcome. -/
inductive Event where
  | textSend (overrideText : JsVal)
  | imageChange (file : Option File) (url : String)
  | completion (index : Nat) (o : FetchOutcome)

/-- A handler part runs: its effects act on the session and are logged, and
each request it issues becomes outstanding. -/
def World.perform (w : World) (channel : Channel) (effects : List Effect) : Js World :=
  match run effects w.session with
  | .ok s => .ok { session := s, outstanding := w.outstanding ++ pendingOf channel effects,
                   trace := w.trace ++ effects }
  | .error e => .error e

/-- The part of a handler after its `await`. -/
def Channel.after : Channel → FetchOutcome → List Effect
  | .chat, o => handleTextSendAfter o
  | .vision, o => handleImageChangeAfter o

/-- One event. A channel that fires runs its handler up to the `await`,
whatever the busy flag and whatever is outstanding; a completion resumes the
suspended handler and removes its request. A completion for a position that
holds no request changes nothing. -/
def World.step (w : World) : Event → Js World
  | .textSend overrideText =>
    match handleTextSendBefore w.session.text overrideText with
    | .error e => .error e
    | .ok none => .ok w
    | .ok (some before) => w.perform .chat before
  | .imageChange file url =>
    match handleImageChangeBefore file url with
    | none => .ok w
    | some before => w.perform .vision before
  | .completion index o =>
    match w.outstanding.get? index with
    | none => .ok w
    | some p =>
      match run (p.channel.after o) w.session with
      | .ok s => .ok { session := s, outstanding := w.outstanding.eraseIdx index,
                       trace := w.trace ++ p.channel.after o }
      | .error e => .error e

/-- The world at session start: nothing outstanding, nothing done. -/
def World.initial : World :=
  { session := Session.initial, outstanding := [], trace := [] }

/-! ## Lemmas on lists -/

theorem get?_last_but_one {α : Type} (l : List α) (a b : α) :
    (l ++ [a] ++ [b]).get? l.length = some a := by
  induction l with
  | nil => rfl
  | cons x xs ih => simpa using ih

theorem get?_last_of_two {α : Type} (l : List α) (a b : α) :
    (l ++ [a] ++ [b]).get? (l.length + 1) = some b := by
  induction l with
  | nil => rfl
  | cons x xs ih => simpa using ih

theorem eraseIdx_last_but_one {α : Type} (l : List α) (a b : α) :
    (l ++ [a] ++ [b]).eraseIdx l.length = l ++ [b] := by
  induction l with
  | nil => rfl
  | cons x xs ih => simpa using ih

theorem eraseIdx_last_of_two {α : Type} (l : List α) (a b : α) :
    (l ++ [a] ++ [b]).eraseIdx (l.length + 1) = l ++ [a] := by
  induction l with
  | nil => rfl
  | cons x xs ih => simpa using ih

/-! ## Lemmas on the built-ins -/

theorem trimChars_blank (cs : List Char) (h : ∀ c ∈ cs, isJsWhiteSpace c = true) :
    trimChars cs = [] := by
  have h1 : cs.dropWhile isJsWhiteSpace = [] := List.dropWhile_eq_nil_iff.mpr h
  simp [trimChars, h1]

theorem jsTrim_blank (t : String) (h : ∀ c ∈ t.data, isJsWhiteSpace c = true) :
    jsTrim t = "" := by
  simp [jsTrim, trimChars_blank t.data h]

theorem toSafeString_str (s : String) : toSafeString (.str s) = .ok (.str s) := by
  simp [toSafeString, typeofJs]

mutual
theorem serialize_json : ∀ j : Json, ∃ text, serializeJSONProperty j.toJs = .ok (some text)
  | .null => by simp [Json.toJs, serializeJSONProperty]
  | .bool true => by simp [Json.toJs, serializeJSONProperty]
  | .bool false => by simp [Json.toJs, serializeJSONProperty]
  | .num (.finite shown) => by simp [Json.toJs, serializeJSONProperty]
  | .num .nan => by simp [Json.toJs, serializeJSONProperty]
  | .num (.infinity _) => by simp [Json.toJs, serializeJSONProperty]
  | .str s => by simp [Json.toJs, serializeJSONProperty]
  | .arr items => by
    obtain ⟨texts, h⟩ := serialize_json_list items
    simp [Json.toJs, serializeJSONProperty, h]
  | .obj fields => by
    obtain ⟨texts, h⟩ := serialize_json_fields fields
    simp [Json.toJs, serializeJSONProperty, h]
theorem serialize_json_list : ∀ items : List Json,
    ∃ texts, serializeJSONElements (Json.toJsList items) = .ok texts
  | [] => by simp [Json.toJsList, serializeJSONElements]
  | j :: rest => by
    obtain ⟨text, h⟩ := serialize_json j
    obtain ⟨texts, hs⟩ := serialize_json_list rest
    simp [Json.toJsList, serializeJSONElements, h, hs]
theorem serialize_json_fields : ∀ fields : List (String × Json),
    ∃ texts, serializeJSONMembers (Json.toJsFields fields) = .ok texts
  | [] => by simp [Json.toJsFields, serializeJSONMembers]
  | (key, j) :: rest => by
    obtain ⟨text, h⟩ := serialize_json j
    obtain ⟨texts, hs⟩ := serialize_json_fields rest
    simp [Json.toJsFields, serializeJSONMembers, h, hs]
end

/-- On a parsed JSON value `toSafeString` returns a string. -/
theorem toSafeString_json (j : Json) : ∃ t, toSafeString j.toJs = .ok (.str t) := by
  obtain ⟨text, h⟩ := serialize_json j
  cases j <;>
    simp_all [toSafeString, Json.toJs, typeofJs, isUndefined, isValidElement, jsonStringify]

/-- What `data.reply || fallback` is made safe to: always a string. -/
theorem toSafeString_reply (data : Json) (reply : JsVal) (fallback : String)
    (h : getReply data = .ok reply) :
    ∃ t, toSafeString (jsOr reply (.str fallback)) = .ok (.str t) := by
  unfold jsOr
  split
  · cases data <;> simp [getReply] at h
    case obj fields =>
      split at h
      · rename_i j _
        cases h
        exact toSafeString_json j
      · cases h
        simp_all [truthy]
    all_goals (subst h; simp_all [truthy])
  · exact ⟨_, toSafeString_str fallback⟩

/-- The function `toSafeString` returns a string or `undefined`, when it returns. -/
theorem toSafeString_range (v r : JsVal) (h : toSafeString v = .ok r) :
    r = .undefined ∨ ∃ t, r = .str t := by
  unfold toSafeString at h
  split at h
  · cases v <;> simp [typeofJs] at *
    subst h
    exact Or.inr ⟨_, rfl⟩
  · split at h
    · cases h; exact Or.inr ⟨_, rfl⟩
    · split at h
      · cases h; exact Or.inr ⟨_, rfl⟩
      · split at h
        · rename_i text hjs
          cases h
          unfold jsonStringify at hjs
          split at hjs
          · cases hjs
          · cases hjs; exact Or.inl rfl
          · cases hjs; exact Or.inr ⟨_, rfl⟩
        · split at h
          · cases h; exact Or.inr ⟨_, rfl⟩
          · cases h

/-! ## Lemmas on the handlers -/

/-- The message an accepted text send carries: the safe form of the override,
or of the composing text when there is no override. -/
theorem handleTextSendBefore_some (text : String) (v : JsVal) (before : List Effect)
    (h : handleTextSendBefore text v = .ok (some before)) :
    ∃ m, jsTrim m ≠ "" ∧
      toSafeString (if !isUndefined v then v else .str text) = .ok (.str m) ∧
      before = [.appendMessage .user (.str m)]
        ++ (if isUndefined v then [.setText ""] else [])
        ++ [.setLoading true, .fetch "/chat/" (.urlEncoded [("text", .str m)])] := by
  unfold handleTextSendBefore at h
  split at h
  · cases h
  · simp only at h
    split at h
    · cases h
    · rename_i msgStr hsafe
      rcases toSafeString_range _ _ hsafe with hu | ⟨m, hm⟩
      · subst hu
        simp [callTrim] at h
      · subst hm
        simp only [callTrim] at h
        split at h
        · cases h
        · injection h with h
          injection h with h
          exact ⟨m, by simpa using ‹¬(jsTrim m == "") = true›, hsafe, h.symm⟩

/-- A string whose trimmed form is not empty passes both guards. -/
theorem handleTextSendBefore_str (text m : String) (h : jsTrim m ≠ "") :
    handleTextSendBefore text (.str m) = .ok (some [.appendMessage .user (.str m),
      .setLoading true, .fetch "/chat/" (.urlEncoded [("text", .str m)])]) := by
  simp [handleTextSendBefore, typeofJs, instanceofString, isUndefined, toSafeString_str,
    callTrim, h]

/-- After the `await`, `handleTextSend` appends one bot message, whose safe
form is a string, and clears the busy flag. -/
theorem handleTextSendAfter_shape (o : FetchOutcome) :
    ∃ b t, handleTextSendAfter o = [.appendMessage .bot b, .setLoading false] ∧
      toSafeString b = .ok (.str t) := by
  rcases o with _ | ⟨status, _ | data⟩
  · exact ⟨_, _, rfl, toSafeString_str _⟩
  · exact ⟨_, _, rfl, toSafeString_str _⟩
  · cases hr : getReply data with
    | error e =>
      refine ⟨.str "Error contacting server.", _, ?_, toSafeString_str _⟩
      simp [handleTextSendAfter, FetchOutcome.awaitFetch, awaitJson, hr, bind, Except.bind]
    | ok reply =>
      obtain ⟨t, ht⟩ := toSafeString_reply data reply "No reply from server." hr
      refine ⟨_, t, ?_, ht⟩
      simp [handleTextSendAfter, FetchOutcome.awaitFetch, awaitJson, hr, bind, Except.bind,
        pure, Except.pure]

/-- After the `await`, `handleImageChange` appends one bot message, whose safe
form is a string, clears the busy flag and resets the file input. -/
theorem handleImageChangeAfter_shape (o : FetchOutcome) :
    ∃ b t, handleImageChangeAfter o = [.appendMessage .bot b, .setLoading false, .resetInput] ∧
      toSafeString b = .ok (.str t) := by
  rcases o with _ | ⟨status, _ | data⟩
  · exact ⟨_, _, rfl, toSafeString_str _⟩
  · exact ⟨_, _, rfl, toSafeString_str _⟩
  · cases hr : getReply data with
    | error e =>
      refine ⟨.str "Image send failed.", _, ?_, toSafeString_str _⟩
      simp [handleImageChangeAfter, FetchOutcome.awaitFetch, awaitJson, hr, bind, Except.bind]
    | ok reply =>
      obtain ⟨t, ht⟩ := toSafeString_reply data reply "No response for image." hr
      refine ⟨_, t, ?_, ht⟩
      simp [handleImageChangeAfter, FetchOutcome.awaitFetch, awaitJson, hr, bind, Except.bind,
        pure, Except.pure]

/-- The state an accepted text send leaves. -/
theorem textSend_accepted (s : Session) (v : JsVal) (o : FetchOutcome) (before : List Effect)
    (h : handleTextSendBefore s.text v = .ok (some before)) :
    ∃ m b t, jsTrim m ≠ "" ∧
      toSafeString (if !isUndefined v then v else .str s.text) = .ok (.str m) ∧
      handleTextSendAfter o = [.appendMessage .bot b, .setLoading false] ∧
      toSafeString b = .ok (.str t) ∧
      textSend s v o = .ok (before ++ handleTextSendAfter o,
        { s with messages := s.messages ++ [⟨.user, .str m⟩, ⟨.bot, .str t⟩],
                 text := if isUndefined v then "" else s.text,
                 loading := false }) := by
  obtain ⟨m, hm, hsafe, hb⟩ := handleTextSendBefore_some s.text v before h
  obtain ⟨b, t, ha, ht⟩ := handleTextSendAfter_shape o
  refine ⟨m, b, t, hm, hsafe, ha, ht, ?_⟩
  simp only [textSend, handleTextSend, h, ha]
  subst hb
  cases hv : isUndefined v <;>
    simp [run, Effect.apply, appendMessage, toSafeString_str, ht]

/-- The state an image send leaves. -/
theorem imageSend_file (s : Session) (f : File) (url : String) (o : FetchOutcome) :
    ∃ b t, handleImageChangeAfter o = [.appendMessage .bot b, .setLoading false, .resetInput] ∧
      toSafeString b = .ok (.str t) ∧
      imageSend s (some f) url o = .ok (handleImageChange (some f) url o,
        { s with messages := s.messages ++ [⟨.user, .str "[Sent an image]"⟩, ⟨.bot, .str t⟩],
                 image := some url,
                 loading := false }) := by
  obtain ⟨b, t, ha, ht⟩ := handleImageChangeAfter_shape o
  refine ⟨b, t, ha, ht, ?_⟩
  simp [imageSend, handleImageChange, handleImageChangeBefore, ha, run, Effect.apply,
    appendMessage, toSafeString_str, ht]

/-- The state a text send with a non-blank string override leaves, given what
the handler does after the `await`. -/
theorem textSend_str (s : Session) (msg : String) (o : FetchOutcome) (b : JsVal) (t : String)
    (hmsg : jsTrim msg ≠ "")
    (ha : handleTextSendAfter o = [.appendMessage .bot b, .setLoading false])
    (ht : toSafeString b = .ok (.str t)) :
    textSend s (.str msg) o = .ok ([.appendMessage .user (.str msg), .setLoading true,
        .fetch "/chat/" (.urlEncoded [("text", .str msg)]), .appendMessage .bot b,
        .setLoading false],
      { s with messages := s.messages ++ [⟨.user, .str msg⟩, ⟨.bot, .str t⟩],
               loading := false }) := by
  simp [textSend, handleTextSend, handleTextSendBefore_str s.text msg hmsg, ha, run,
    Effect.apply, appendMessage, toSafeString_str, ht]

/-- What `handleTextSend` does after the `await` when the body parses to an
object: it appends `reply || fallback`. -/
theorem handleTextSendAfter_obj (status : Nat) (fields : List (String × Json)) :
    handleTextSendAfter (.response status (some (.obj fields))) =
      [.appendMessage .bot (jsOr
        (match fields.lookup "reply" with
          | some reply => reply.toJs
          | none => .undefined) (.str "No reply from server.")), .setLoading false] := by
  cases h : fields.lookup "reply" <;>
    simp [handleTextSendAfter, FetchOutcome.awaitFetch, awaitJson, getReply, h, bind,
      Except.bind, pure, Except.pure]

/-! ## The claims -/

/-- C1: `toSafeString` does not return a string on every value: a function and
a symbol are turned into `undefined`, because `JSON.stringify` returns
`undefined` for them without throwing; and an array holding a bigint and a
symbol makes it throw, because both `JSON.stringify` and `String` throw. -/
theorem toSafeString_not_total :
    (∀ source, toSafeString (.func source) = .ok .undefined) ∧
    (∀ description, toSafeString (.symbol description) = .ok .undefined) ∧
    toSafeString (.arr [.bigint 10, .symbol "x"]) = .error .typeError :=
  ⟨fun _ => rfl, fun _ => rfl, rfl⟩

/-- C2: a text that is empty or made of white space only, whether it is the
composing text of a plain submit or a string passed as override, makes
`handleTextSend` perform no effect at all: no message is appended, no request
is issued, and the session is left as it was. -/
theorem blank_text_not_sent (s : Session) (t : String) (o : FetchOutcome)
    (h : ∀ c ∈ t.data, isJsWhiteSpace c = true) :
    textSend { s with text := t } .undefined o = .ok ([], { s with text := t }) ∧
    textSend s (.str t) o = .ok ([], s) := by
  have ht := jsTrim_blank t h
  constructor <;>
    simp [textSend, handleTextSend, handleTextSendBefore, truthy, typeofJs, instanceofString,
      isUndefined, toSafeString_str, callTrim, ht, run]

theorem blank_text_not_sent_witness :
    (∀ c ∈ "  \n".data, isJsWhiteSpace c = true) ∧
    textSend { Session.initial with text := "  \n" } .undefined .rejected
      = .ok ([], { Session.initial with text := "  \n" }) ∧
    textSend Session.initial (.str "  \n") .rejected = .ok ([], Session.initial) :=
  ⟨by decide, blank_text_not_sent Session.initial "  \n" .rejected (by decide)⟩

/-- C3: an accepted text send and an image send, whatever the outcome of the
backend call, end with the busy flag false and with the store extended by the
user message followed by exactly one bot message, whose text is a string. -/
theorem busy_cleared_one_bot_message :
    (∀ (s : Session) (v : JsVal) (o : FetchOutcome) (before : List Effect),
      handleTextSendBefore s.text v = .ok (some before) →
      ∃ effects after m b, textSend s v o = .ok (effects, after) ∧
        after.loading = false ∧
        after.messages = s.messages ++ [⟨.user, .str m⟩, ⟨.bot, .str b⟩]) ∧
    (∀ (s : Session) (f : File) (url : String) (o : FetchOutcome),
      ∃ effects after b, imageSend s (some f) url o = .ok (effects, after) ∧
        after.loading = false ∧
        after.messages = s.messages ++ [⟨.user, .str "[Sent an image]"⟩, ⟨.bot, .str b⟩]) := by
  constructor
  · intro s v o before h
    obtain ⟨m, b, t, _, _, _, _, hrun⟩ := textSend_accepted s v o before h
    exact ⟨_, _, m, t, hrun, rfl, rfl⟩
  · intro s f url o
    obtain ⟨b, t, _, _, hrun⟩ := imageSend_file s f url o
    exact ⟨_, _, t, hrun, rfl, rfl⟩

theorem busy_cleared_one_bot_message_witness :
    ∃ effects after m b, textSend Session.initial (.str "hi") .rejected = .ok (effects, after) ∧
      after.loading = false ∧
      after.messages = Session.initial.messages ++ [⟨.user, .str m⟩, ⟨.bot, .str b⟩] :=
  busy_cleared_one_bot_message.1 Session.initial (.str "hi") .rejected
    [.appendMessage .user (.str "hi"), .setLoading true,
      .fetch "/chat/" (.urlEncoded [("text", .str "hi")])] rfl

/-- C4, as stated, fails: a reply field that is present and holds the empty
string is replaced by the fallback text, since `data.reply || ...` tests
truthiness and not presence. -/
theorem empty_reply_replaced :
    textSend Session.initial (.str "hi") (.response 200 (some (.obj [("reply", .str "")])))
      = .ok ([.appendMessage .user (.str "hi"), .setLoading true,
          .fetch "/chat/" (.urlEncoded [("text", .str "hi")]),
          .appendMessage .bot (.str "No reply from server."), .setLoading false],
        { Session.initial with
          messages := [⟨.user, .str "hi"⟩, ⟨.bot, .str "No reply from server."⟩] }) ∧
    ([⟨.user, .str "hi"⟩, ⟨.bot, .str "No reply from server."⟩] : List Message)
      ≠ [⟨.user, .str "hi"⟩, ⟨.bot, .str ""⟩] :=
  ⟨rfl, by simp⟩

/-- C4, amended: for a string `msg` whose trimmed form is not empty, when the
chat endpoint answers with a JSON object whose reply field holds a non-empty
string `r`, the store ends as the prior store followed by `msg` from the user
and `r` from the bot; when the reply field is absent or holds a falsy value,
the bot message is the fallback text. -/
theorem reply_or_fallback_appended (s : Session) (msg : String) (status : Nat)
    (fields : List (String × Json)) (hmsg : jsTrim msg ≠ "") :
    (∀ r : String, r ≠ "" → fields.lookup "reply" = some (.str r) →
      ∃ effects after, textSend s (.str msg) (.response status (some (.obj fields)))
          = .ok (effects, after) ∧
        after.messages = s.messages ++ [⟨.user, .str msg⟩, ⟨.bot, .str r⟩]) ∧
    ((fields.lookup "reply" = none ∨
        ∃ j, fields.lookup "reply" = some j ∧ truthy j.toJs = false) →
      ∃ effects after, textSend s (.str msg) (.response status (some (.obj fields)))
          = .ok (effects, after) ∧
        after.messages = s.messages ++
          [⟨.user, .str msg⟩, ⟨.bot, .str "No reply from server."⟩]) := by
  have ha := handleTextSendAfter_obj status fields
  constructor
  · intro r hr hreply
    have hb : jsOr (Json.str r).toJs (.str "No reply from server.") = .str r := by
      simp [jsOr, Json.toJs, truthy, hr]
    simp only [hreply, hb] at ha
    exact ⟨_, _, textSend_str s msg _ _ r hmsg ha (toSafeString_str r), rfl⟩
  · rintro (hnone | ⟨j, hj, hfalsy⟩)
    · have hb : jsOr .undefined (.str "No reply from server.")
          = .str "No reply from server." := by
        simp [jsOr, truthy]
      simp only [hnone, hb] at ha
      exact ⟨_, _, textSend_str s msg _ _ _ hmsg ha (toSafeString_str _), rfl⟩
    · have hb : jsOr j.toJs (.str "No reply from server.")
          = .str "No reply from server." := by
        simp [jsOr, hfalsy]
      simp only [hj, hb] at ha
      exact ⟨_, _, textSend_str s msg _ _ _ hmsg ha (toSafeString_str _), rfl⟩

theorem reply_or_fallback_appended_witness :
    jsTrim "What is a fever?" ≠ "" ∧
    ∃ effects after,
      textSend Session.initial (.str "What is a fever?")
        (.response 200 (some (.obj [("reply", .str "A fever is...")]))) = .ok (effects, after) ∧
      after.messages = Session.initial.messages ++
        [⟨.user, .str "What is a fever?"⟩, ⟨.bot, .str "A fever is..."⟩] :=
  ⟨by decide,
    (reply_or_fallback_appended Session.initial "What is a fever?" 200
      [("reply", .str "A fever is...")] (by decide)).1 "A fever is..." (by decide) rfl⟩

/-- C5, as stated, fails: a response with a non-success status whose body
parses as JSON is not treated as a failure; the status is never read, and with
no reply field in the body the bot message is the fallback text. -/
theorem failure_status_not_reported :
    textSend Session.initial (.str "hi")
        (.response 500 (some (.obj [("detail", .str "Internal Server Error")])))
      = .ok ([.appendMessage .user (.str "hi"), .setLoading true,
          .fetch "/chat/" (.urlEncoded [("text", .str "hi")]),
          .appendMessage .bot (.str "No reply from server."), .setLoading false],
        { Session.initial with
          messages := [⟨.user, .str "hi"⟩, ⟨.bot, .str "No reply from server."⟩] }) ∧
    (⟨.bot, .str "No reply from server."⟩ : Message)
      ≠ ⟨.bot, .str "Error contacting server."⟩ :=
  ⟨rfl, by simp⟩

/-- C5, amended: for every accepted text send, when the request is rejected,
or the body of the response cannot be parsed as JSON, or it parses to `null`,
the bot message appended to the store is exactly the text
`Error contacting server.`; the status of the response plays no part. -/
theorem transport_failure_reported (s : Session) (v : JsVal) (before : List Effect)
    (status : Nat) (o : FetchOutcome)
    (h : handleTextSendBefore s.text v = .ok (some before))
    (ho : o = .rejected ∨ o = .response status none ∨ o = .response status (some .null)) :
    (∃ effects after m, textSend s v o = .ok (effects, after) ∧
      after.messages = s.messages ++
        [⟨.user, .str m⟩, ⟨.bot, .str "Error contacting server."⟩]) ∧
    (∀ (status2 : Nat) (body : Option Json),
      textSend s v (.response status body) = textSend s v (.response status2 body)) := by
  constructor
  · obtain ⟨m, b, t, _, _, ha, ht, hrun⟩ := textSend_accepted s v o before h
    have hb : handleTextSendAfter o
        = [.appendMessage .bot (.str "Error contacting server."), .setLoading false] := by
      rcases ho with rfl | rfl | rfl <;> rfl
    rw [hb] at ha
    injection ha with ha _
    injection ha with _ ha
    subst ha
    rw [toSafeString_str] at ht
    injection ht with ht
    injection ht with ht
    subst ht
    exact ⟨_, _, m, hrun, rfl⟩
  · intro status2 body
    rfl

theorem transport_failure_reported_witness :
    (∃ effects after m, textSend Session.initial (.str "hi") .rejected = .ok (effects, after) ∧
      after.messages = Session.initial.messages ++
        [⟨.user, .str m⟩, ⟨.bot, .str "Error contacting server."⟩]) ∧
    (∀ (status2 : Nat) (body : Option Json),
      textSend Session.initial (.str "hi") (.response 502 body)
        = textSend Session.initial (.str "hi") (.response status2 body)) :=
  transport_failure_reported Session.initial (.str "hi")
    [.appendMessage .user (.str "hi"), .setLoading true,
      .fetch "/chat/" (.urlEncoded [("text", .str "hi")])] 502 .rejected rfl (Or.inl rfl)

/-- C6, as stated, fails: a number, a boolean and a String wrapper object are
not strings, yet each passes the guard, is made safe by `toSafeString`, is
appended as a user message and is sent. -/
theorem non_string_override_sent :
    handleTextSend "" (.num (.finite "5")) .rejected
      = .ok [.appendMessage .user (.str "5"), .setLoading true,
          .fetch "/chat/" (.urlEncoded [("text", .str "5")]),
          .appendMessage .bot (.str "Error contacting server."), .setLoading false] ∧
    handleTextSend "" (.bool true) .rejected
      = .ok [.appendMessage .user (.str "true"), .setLoading true,
          .fetch "/chat/" (.urlEncoded [("text", .str "true")]),
          .appendMessage .bot (.str "Error contacting server."), .setLoading false] ∧
    handleTextSend "" (.stringObj "hi") .rejected
      = .ok [.appendMessage .user (.str "\"hi\""), .setLoading true,
          .fetch "/chat/" (.urlEncoded [("text", .str "\"hi\"")]),
          .appendMessage .bot (.str "Error contacting server."), .setLoading false] ∧
    (textSend Session.initial (.num (.finite "5")) .rejected).toOption.map
        (fun r => r.2.messages.length) = some 2 :=
  ⟨rfl, rfl, rfl, rfl⟩

/-- C6, amended: an override whose `typeof` is `object` and that is not a
String wrapper object (`null`, an array, a plain object, a React element) is
silently ignored: `handleTextSend` performs no effect and the session is left
as it was. -/
theorem object_override_ignored (s : Session) (v : JsVal) (o : FetchOutcome)
    (hobj : typeofJs v = "object") (hwrap : instanceofString v = false) :
    textSend s v o = .ok ([], s) := by
  cases v <;> simp [typeofJs, instanceofString] at hobj hwrap
  case null =>
    have h : jsTrim "" = "" := by decide
    simp [textSend, handleTextSend, handleTextSendBefore, truthy, typeofJs, instanceofString,
      isUndefined, toSafeString, isValidElement, callTrim, h, run]
  all_goals
    simp [textSend, handleTextSend, handleTextSendBefore, truthy, typeofJs, instanceofString,
      run]

theorem object_override_ignored_witness :
    textSend Session.initial (.arr [.str "hi"]) .rejected = .ok ([], Session.initial) ∧
    textSend Session.initial (.obj [("text", .str "hi")]) .rejected
      = .ok ([], Session.initial) :=
  ⟨object_override_ignored Session.initial (.arr [.str "hi"]) .rejected rfl rfl,
    object_override_ignored Session.initial (.obj [("text", .str "hi")]) .rejected rfl rfl⟩

/-- C7: the message store is append-only. `appendMessage` either throws
inside `toSafeString` or returns the prior store with one entry added at the
end; a text send either throws before its first effect or leaves a store of
which the prior store is a prefix; an image send leaves a store of which the
prior store is a prefix. -/
theorem store_append_only :
    (∀ (sender : Sender) (text : JsVal) (prev : List Message),
      (∃ safe, appendMessage sender text prev = .ok (prev ++ [⟨sender, safe⟩])) ∨
      (∃ e, toSafeString text = .error e ∧ appendMessage sender text prev = .error e)) ∧
    (∀ (s : Session) (v : JsVal) (o : FetchOutcome),
      (∃ effects after, textSend s v o = .ok (effects, after) ∧
        s.messages <+: after.messages) ∨
      (∃ e, handleTextSendBefore s.text v = .error e ∧ textSend s v o = .error e)) ∧
    (∀ (s : Session) (file : Option File) (url : String) (o : FetchOutcome),
      ∃ effects after, imageSend s file url o = .ok (effects, after) ∧
        s.messages <+: after.messages) := by
  refine ⟨?_, ?_, ?_⟩
  · intro sender text prev
    cases h : toSafeString text with
    | ok safe => exact Or.inl ⟨safe, by simp [appendMessage, h]⟩
    | error e => exact Or.inr ⟨e, rfl, by simp [appendMessage, h]⟩
  · intro s v o
    cases h : handleTextSendBefore s.text v with
    | error e => exact Or.inr ⟨e, rfl, by simp [textSend, handleTextSend, h]⟩
    | ok r =>
      cases r with
      | none =>
        exact Or.inl ⟨[], s, by simp [textSend, handleTextSend, h, run], List.prefix_refl _⟩
      | some before =>
        obtain ⟨m, b, t, _, _, _, _, hrun⟩ := textSend_accepted s v o before h
        exact Or.inl ⟨_, _, hrun, List.prefix_append _ _⟩
  · intro s file url o
    cases file with
    | none =>
      exact ⟨[], s, by simp [imageSend, handleImageChange, handleImageChangeBefore, run],
        List.prefix_refl _⟩
    | some f =>
      obtain ⟨b, t, _, _, hrun⟩ := imageSend_file s f url o
      exact ⟨_, _, hrun, List.prefix_append _ _⟩

/-- C8: the busy flag is one boolean with no queue. From any world, whatever
its flag and whatever is outstanding, a text send sets the flag and issues its
request at once, and so does an image send; an image send fired while the text
call is outstanding sets the flag and issues its request at once too, so that
both requests are outstanding; and whichever of the two completes first appends
its bot message and clears the flag while the other is still outstanding. -/
theorem premature_not_busy (w : World) (msg : String) (f : File) (url : String)
    (o : FetchOutcome) (hmsg : jsTrim msg ≠ "") :
    ∃ w1 w2 w3 w4 w5 b3 b4,
      w.step (.textSend (.str msg)) = .ok w1 ∧
      w1.session.loading = true ∧
      w1.outstanding = w.outstanding
        ++ [⟨.chat, "/chat/", .urlEncoded [("text", .str msg)]⟩] ∧
      w1.trace = w.trace ++ [.appendMessage .user (.str msg), .setLoading true,
        .fetch "/chat/" (.urlEncoded [("text", .str msg)])] ∧
      w.step (.imageChange (some f) url) = .ok w5 ∧
      w5.session.loading = true ∧
      w5.outstanding = w.outstanding ++ [⟨.vision, "/vision/", .formData f ""⟩] ∧
      w1.step (.imageChange (some f) url) = .ok w2 ∧
      w2.session.loading = true ∧
      w2.outstanding = w.outstanding
        ++ [⟨.chat, "/chat/", .urlEncoded [("text", .str msg)]⟩,
            ⟨.vision, "/vision/", .formData f ""⟩] ∧
      w2.trace = w1.trace ++ [.setImage url, .appendMessage .user (.str "[Sent an image]"),
        .setLoading true, .fetch "/vision/" (.formData f "")] ∧
      w2.step (.completion w.outstanding.length o) = .ok w3 ∧
      w3.session.loading = false ∧
      w3.outstanding = w.outstanding ++ [⟨.vision, "/vision/", .formData f ""⟩] ∧
      w3.trace = w2.trace ++ [.appendMessage .bot b3, .setLoading false] ∧
      w2.step (.completion (w.outstanding.length + 1) o) = .ok w4 ∧
      w4.session.loading = false ∧
      w4.outstanding = w.outstanding
        ++ [⟨.chat, "/chat/", .urlEncoded [("text", .str msg)]⟩] ∧
      w4.trace = w2.trace ++ [.appendMessage .bot b4, .setLoading false, .resetInput] := by
  obtain ⟨b, t, ha, ht⟩ := handleTextSendAfter_shape o
  obtain ⟨b2, t2, ha2, ht2⟩ := handleImageChangeAfter_shape o
  have hb := handleTextSendBefore_str w.session.text msg hmsg
  let chatP : Pending := ⟨.chat, "/chat/", .urlEncoded [("text", .str msg)]⟩
  let visionP : Pending := ⟨.vision, "/vision/", .formData f ""⟩
  let e1 : List Effect := [.appendMessage .user (.str msg), .setLoading true,
    .fetch "/chat/" (.urlEncoded [("text", .str msg)])]
  let e2 : List Effect := [.setImage url, .appendMessage .user (.str "[Sent an image]"),
    .setLoading true, .fetch "/vision/" (.formData f "")]
  let s1 : Session := { w.session with
    messages := w.session.messages ++ [⟨.user, .str msg⟩], loading := true }
  let s2 : Session := { s1 with
    image := some url,
    messages := s1.messages ++ [⟨.user, .str "[Sent an image]"⟩], loading := true }
  let s5 : Session := { w.session with
    image := some url,
    messages := w.session.messages ++ [⟨.user, .str "[Sent an image]"⟩], loading := true }
  have hget := get?_last_but_one w.outstanding chatP visionP
  have hget2 := get?_last_of_two w.outstanding chatP visionP
  refine ⟨World.mk s1 (w.outstanding ++ [chatP]) (w.trace ++ e1),
    World.mk s2 (w.outstanding ++ [chatP] ++ [visionP]) (w.trace ++ e1 ++ e2),
    World.mk { s2 with messages := s2.messages ++ [Message.mk .bot (.str t)], loading := false }
      (w.outstanding ++ [visionP])
      (w.trace ++ e1 ++ e2 ++ [.appendMessage .bot b, .setLoading false]),
    World.mk { s2 with messages := s2.messages ++ [Message.mk .bot (.str t2)], loading := false }
      (w.outstanding ++ [chatP])
      (w.trace ++ e1 ++ e2 ++ [.appendMessage .bot b2, .setLoading false, .resetInput]),
    World.mk s5 (w.outstanding ++ [visionP]) (w.trace ++ e2),
    b, b2,
    ?_, rfl, rfl, rfl, ?_, rfl, rfl, ?_, rfl, ?_, rfl, ?_, rfl, rfl, rfl, ?_, rfl, rfl, rfl⟩
  · simp only [World.step, World.perform, pendingOf, hb, run, Effect.apply, appendMessage,
      toSafeString_str, s1, chatP, e1]
  · simp only [World.step, World.perform, pendingOf, handleImageChangeBefore, run,
      Effect.apply, appendMessage, toSafeString_str, s5, visionP, e2]
  · simp only [World.step, World.perform, pendingOf, handleImageChangeBefore, run,
      Effect.apply, appendMessage, toSafeString_str, s2, s1, chatP, visionP, e1, e2]
  · simp
  · simp only [World.step, hget, Channel.after, ha, run, Effect.apply, appendMessage, ht,
      eraseIdx_last_but_one, chatP]
  · simp only [World.step, hget2, Channel.after, ha2, run, Effect.apply, appendMessage, ht2,
      eraseIdx_last_of_two, visionP]

theorem premature_not_busy_witness :
    jsTrim "hi" ≠ "" ∧
    ∃ w1 w2 w3 w4 w5 b3 b4,
      World.initial.step (.textSend (.str "hi")) = .ok w1 ∧
      w1.session.loading = true ∧
      w1.outstanding = World.initial.outstanding
        ++ [⟨.chat, "/chat/", .urlEncoded [("text", .str "hi")]⟩] ∧
      w1.trace = World.initial.trace ++ [.appendMessage .user (.str "hi"), .setLoading true,
        .fetch "/chat/" (.urlEncoded [("text", .str "hi")])] ∧
      World.initial.step (.imageChange (some ⟨"scan.png"⟩) "blob:1") = .ok w5 ∧
      w5.session.loading = true ∧
      w5.outstanding = World.initial.outstanding
        ++ [⟨.vision, "/vision/", .formData ⟨"scan.png"⟩ ""⟩] ∧
      w1.step (.imageChange (some ⟨"scan.png"⟩) "blob:1") = .ok w2 ∧
      w2.session.loading = true ∧
      w2.outstanding = World.initial.outstanding
        ++ [⟨.chat, "/chat/", .urlEncoded [("text", .str "hi")]⟩,
            ⟨.vision, "/vision/", .formData ⟨"scan.png"⟩ ""⟩] ∧
      w2.trace = w1.trace ++ [.setImage "blob:1",
        .appendMessage .user (.str "[Sent an image]"),
        .setLoading true, .fetch "/vision/" (.formData ⟨"scan.png"⟩ "")] ∧
      w2.step (.completion World.initial.outstanding.length .rejected) = .ok w3 ∧
      w3.session.loading = false ∧
      w3.outstanding = World.initial.outstanding
        ++ [⟨.vision, "/vision/", .formData ⟨"scan.png"⟩ ""⟩] ∧
      w3.trace = w2.trace ++ [.appendMessage .bot b3, .setLoading false] ∧
      w2.step (.completion (World.initial.outstanding.length + 1) .rejected) = .ok w4 ∧
      w4.session.loading = false ∧
      w4.outstanding = World.initial.outstanding
        ++ [⟨.chat, "/chat/", .urlEncoded [("text", .str "hi")]⟩] ∧
      w4.trace = w2.trace ++ [.appendMessage .bot b4, .setLoading false, .resetInput] :=
  ⟨by decide, premature_not_busy World.initial "hi" ⟨"scan.png"⟩ "blob:1" .rejected (by decide)⟩

/-- C9: in the effects of an accepted text send and of an image send,
whatever the outcome of the backend call, the user message is appended before
the request is issued, the bot message is appended after the request and
before the busy flag is cleared, and the effects that come before the request
already leave the user message at the end of the store. -/
theorem append_before_request :
    (∀ (s : Session) (v : JsVal) (o : FetchOutcome) (before : List Effect),
      handleTextSendBefore s.text v = .ok (some before) →
      ∃ effects mid m, handleTextSend s.text v o = .ok effects ∧
        effects.findIdx (Effect.isAppendBy .user) < effects.findIdx Effect.isFetch ∧
        effects.findIdx Effect.isFetch < effects.findIdx (Effect.isAppendBy .bot) ∧
        effects.findIdx (Effect.isAppendBy .bot) < effects.findIdx Effect.isClearBusy ∧
        effects.findIdx Effect.isClearBusy < effects.length ∧
        run (effects.take (effects.findIdx Effect.isFetch)) s = .ok mid ∧
        mid.messages = s.messages ++ [⟨.user, .str m⟩]) ∧
    (∀ (s : Session) (f : File) (url : String) (o : FetchOutcome),
      ∃ mid, (handleImageChange (some f) url o).findIdx (Effect.isAppendBy .user)
          < (handleImageChange (some f) url o).findIdx Effect.isFetch ∧
        (handleImageChange (some f) url o).findIdx Effect.isFetch
          < (handleImageChange (some f) url o).findIdx (Effect.isAppendBy .bot) ∧
        (handleImageChange (some f) url o).findIdx (Effect.isAppendBy .bot)
          < (handleImageChange (some f) url o).findIdx Effect.isClearBusy ∧
        (handleImageChange (some f) url o).findIdx Effect.isClearBusy
          < (handleImageChange (some f) url o).length ∧
        run ((handleImageChange (some f) url o).take
          ((handleImageChange (some f) url o).findIdx Effect.isFetch)) s = .ok mid ∧
        mid.messages = s.messages ++ [⟨.user, .str "[Sent an image]"⟩]) := by
  have hub : (Sender.user == Sender.bot) = false := rfl
  have hbu : (Sender.bot == Sender.user) = false := rfl
  constructor
  · intro s v o before h
    obtain ⟨m, _, _, hb⟩ := handleTextSendBefore_some s.text v before h
    obtain ⟨b, t, ha, _⟩ := handleTextSendAfter_shape o
    subst hb
    let mid1 : Session := { s with
      messages := s.messages ++ [⟨.user, .str m⟩], loading := true }
    let mid2 : Session := { mid1 with text := "" }
    cases hv : isUndefined v
    · refine ⟨_, mid1, m, by simp only [handleTextSend, h]; rfl, ?_⟩
      simp [ha, hv, List.findIdx_cons, Effect.isAppendBy, Effect.isFetch, Effect.isClearBusy,
        run, Effect.apply, appendMessage, toSafeString_str, mid1, hub, hbu]
    · refine ⟨_, mid2, m, by simp only [handleTextSend, h]; rfl, ?_⟩
      simp [ha, hv, List.findIdx_cons, Effect.isAppendBy, Effect.isFetch, Effect.isClearBusy,
        run, Effect.apply, appendMessage, toSafeString_str, mid1, mid2, hub, hbu]
  · intro s f url o
    obtain ⟨b, t, ha, _⟩ := handleImageChangeAfter_shape o
    let mid : Session := { s with
      image := some url,
      messages := s.messages ++ [⟨.user, .str "[Sent an image]"⟩], loading := true }
    refine ⟨mid, ?_⟩
    simp [handleImageChange, handleImageChangeBefore, ha, List.findIdx_cons,
      Effect.isAppendBy, Effect.isFetch, Effect.isClearBusy, run, Effect.apply, appendMessage,
      toSafeString_str, mid, hub, hbu]

theorem append_before_request_witness :
    ∃ effects mid m, handleTextSend "hi" .undefined .rejected = .ok effects ∧
      effects.findIdx (Effect.isAppendBy .user) < effects.findIdx Effect.isFetch ∧
      effects.findIdx Effect.isFetch < effects.findIdx (Effect.isAppendBy .bot) ∧
      effects.findIdx (Effect.isAppendBy .bot) < effects.findIdx Effect.isClearBusy ∧
      effects.findIdx Effect.isClearBusy < effects.length ∧
      run (effects.take (effects.findIdx Effect.isFetch)) { Session.initial with text := "hi" }
        = .ok mid ∧
      mid.messages = [⟨.user, .str m⟩] :=
  append_before_request.1 { Session.initial with text := "hi" } .undefined .rejected
    [.appendMessage .user (.str "hi"), .setText "", .setLoading true,
      .fetch "/chat/" (.urlEncoded [("text", .str "hi")])] rfl

/-- C10: with a recognizer present, `handleVoice` issues exactly one action on
it, a stop when `voiceActive` is true and a start when it is false; with no
recognizer it raises the alert and issues neither. In no case does it change
the session. -/
theorem voice_toggle (s : Session) :
    handleVoice { s with recognition := true, voiceActive := true } = [.recognitionStop] ∧
    handleVoice { s with recognition := true, voiceActive := false } = [.recognitionStart] ∧
    handleVoice { s with recognition := false } = [.alert "Voice recognition not supported"] ∧
    run (handleVoice s) s = .ok s := by
  refine ⟨rfl, rfl, rfl, ?_⟩
  unfold handleVoice
  split
  · rfl
  · split <;> rfl

end App
